import Mathlib

/-!
Shallow embedding of `src/app.py` (career-chat-bot): the push Notifier, the
two tools, the tool dispatcher `handle_tool_calls` (the second, effective
definition using `globals().get`), the persona/system prompt, and the
conversation loop `chat`.

External collaborators are modelled as parameters:
  * the Pushover HTTP POST is recorded in a `PushState` (list of messages
    handed to the Notifier, in order);
  * `json.loads` on a tool call's argument string is modelled by carrying the
    decoded payload directly: `none` stands for malformed JSON (where
    `json.loads` raises `JSONDecodeError`), `some args` for a decoded object;
  * the OpenAI client is an oracle: a list of responses consumed in order,
    one per LLM call;
  * the `me.txt` file read is an `Option String` (`none` = FileNotFoundError).
A Python exception escaping the dispatcher is an `Except.error`; the loop
propagates it to the caller as `LoopResult.failed`.
-/

namespace CareerChatBot

/-- The Notifier's observable effect: the messages POSTed to Pushover, in
order.  (`push` also prints; only the POST is the Notifier contract.) -/
structure PushState where
  sent : List String
deriving Repr, DecidableEq

/-- `push(message)`: sends one Pushover POST carrying `message`. -/
def push (message : String) (s : PushState) : PushState :=
  ⟨s.sent ++ [message]⟩

/-- JSON values that tool invocations produce in this module: Python `None`
(what `push` returns) and flat string-valued objects. -/
inductive JVal where
  | null
  | obj (fields : List (String × String))
deriving Repr, DecidableEq

/-- `{"recorded": "ok"}`, the unconditional result of both tools. -/
def recordedOk : JVal := .obj [("recorded", "ok")]

/-- `json.dumps` on the values of `JVal` (keys/values here need no escaping). -/
def dumps : JVal → String
  | .null => "null"
  | .obj fields =>
      "\x7b" ++ String.intercalate ", "
        (fields.map (fun p => "\"" ++ p.1 ++ "\": \"" ++ p.2 ++ "\"")) ++ "\x7d"

/-- `record_user_details(email, name="Name not provided", notes="not provided")`:
one push notification formatted from the arguments, then `{"recorded": "ok"}`. -/
def record_user_details (email : String) (name : String) (notes : String)
    (s : PushState) : PushState × JVal :=
  (push ("Recording interest from " ++ name ++ " with email " ++ email ++
         " and notes " ++ notes) s,
   recordedOk)

/-- `record_unknown_question(question)`: one push notification naming the
question, then `{"recorded": "ok"}`. -/
def record_unknown_question (question : String) (s : PushState) :
    PushState × JVal :=
  (push ("Recording " ++ question ++ " asked that I couldn't answer") s,
   recordedOk)

/-- A decoded tool-argument object (`json.loads` of the arguments string):
a flat string-valued map, as the two declared schemas describe. -/
abbrev Args := List (String × String)

/-- Look a keyword argument up in a decoded payload. -/
def lookupArg (k : String) (args : Args) : Option String :=
  (args.find? (fun p => p.1 == k)).map Prod.snd

/-- Errors a dispatch can raise (Python exceptions escaping
`handle_tool_calls`). -/
inductive DispatchError where
  | decodeError   -- json.loads raised JSONDecodeError on the arguments
  | typeError     -- calling a non-callable binding, or keyword-argument mismatch
  | foreignCall   -- a callable module binding whose behavior leaves this model
deriving Repr, DecidableEq

/-- A module-level function viewed as a tool: applied to a decoded keyword
payload, it either raises or returns a `JVal`, possibly notifying. -/
abbrev ToolFn := Args → PushState → PushState × Except DispatchError JVal

/-- `push` called as `push(**arguments)`: exactly the keyword `message` is
accepted; `push` returns Python `None`. -/
def pushTool : ToolFn := fun args s =>
  match lookupArg "message" args, args.all (fun p => p.1 == "message") with
  | some m, true => (push m s, .ok .null)
  | _, _ => (s, .error .typeError)

/-- `record_user_details(**arguments)`: keyword `email` required, `name` and
`notes` optional with the source's default strings; anything else raises. -/
def record_user_details_tool : ToolFn := fun args s =>
  match lookupArg "email" args,
        args.all (fun p => p.1 == "email" || p.1 == "name" || p.1 == "notes") with
  | some email, true =>
      let r := record_user_details email
        ((lookupArg "name" args).getD "Name not provided")
        ((lookupArg "notes" args).getD "not provided") s
      (r.1, .ok r.2)
  | _, _ => (s, .error .typeError)

/-- `record_unknown_question(**arguments)`: exactly the keyword `question`. -/
def record_unknown_question_tool : ToolFn := fun args s =>
  match lookupArg "question" args, args.all (fun p => p.1 == "question") with
  | some q, true =>
      let r := record_unknown_question q s
      (r.1, .ok r.2)
  | _, _ => (s, .error .typeError)

/-- A binding in the module's global namespace, as the dispatcher's
`globals().get(tool_name)` sees it. -/
inductive GlobalBinding where
  | tool (f : ToolFn)
  /-- A non-callable module binding (a string, dict, list, module object or
  client instance): calling it raises TypeError. -/
  | plainValue
  /-- A callable module binding whose invocation leaves this model (the
  OpenAI-backed `chat`, the re-entrant `handle_tool_calls`, `load_dotenv`,
  the `OpenAI` constructor): invoking it is an unmodelled foreign call.
  No theorem below depends on what such a call would return. -/
  | foreignFn

/-- Calling a looked-up global binding with the decoded keyword payload. -/
def invokeBinding : GlobalBinding → Args → PushState →
    PushState × Except DispatchError JVal
  | .tool f, args, s => f args s
  | .plainValue, _, s => (s, .error .typeError)
  | .foreignFn, _, s => (s, .error .foreignCall)

/-- The names the Tool Registry exposes to the LLM: the `"name"` fields of
the two schemas in the module's `tools` list. -/
def registryNames : List String := ["record_user_details", "record_unknown_question"]

/-- The module-level global namespace of `app.py` after startup, restricted
to its bindings: the three fully modelled functions, the other callables
(`foreignFn`), and the non-callable module values (`plainValue`).
Any other name is unbound (`globals().get` returns `None`). -/
def moduleGlobals : String → Option GlobalBinding := fun nm =>
  if nm == "push" then some (.tool pushTool)
  else if nm == "record_user_details" then some (.tool record_user_details_tool)
  else if nm == "record_unknown_question" then some (.tool record_unknown_question_tool)
  else if ["load_dotenv", "OpenAI", "chat", "handle_tool_calls"].contains nm then
    some .foreignFn
  else if ["json", "os", "requests", "gr", "openai", "pushover_user",
           "pushover_token", "pushover_url", "record_user_details_json",
           "record_unknown_question_json", "tools", "name", "background_info",
           "combined_documents", "system_prompt", "conversation_count"].contains nm then
    some .plainValue
  else none

/-- `tool_call.function`: the tool name and the argument payload.  The
payload models the result of `json.loads` on the arguments string: `none`
when the string is malformed JSON (the decode raises). -/
structure ToolCallFunction where
  name : String
  arguments : Option Args
deriving Repr, DecidableEq

/-- One ToolInvocationRequest as the OpenAI response carries it:
a correlation id and a function field. -/
structure ToolCall where
  id : String
  function : ToolCallFunction
deriving Repr, DecidableEq

/-- One entry of a conversation message list.  System/user/tool messages are
the dicts the source builds; assistant messages are the provider's message
objects, carrying `tool_calls`. -/
structure Msg where
  role : String
  content : String
  tool_calls : List ToolCall
  tool_call_id : Option String
deriving Repr, DecidableEq

/-- The tool-role result dict the dispatcher appends:
`{"role": "tool", "content": json.dumps(result), "tool_call_id": tool_call.id}`. -/
def mkToolMsg (id : String) (content : String) : Msg :=
  ⟨"tool", content, [], some id⟩

/-- The effective `handle_tool_calls` (the second definition in the file):
for each request in order, decode its arguments (a decode failure raises out
of the whole dispatch), resolve the name with `globals().get`, call the
binding when one exists and use `{}` as the result otherwise, and append one
tool-role message carrying the request's id.  The returned `PushState`
reflects the notifications already sent when an exception escapes. -/
def handle_tool_calls (g : String → Option GlobalBinding) :
    List ToolCall → PushState → PushState × Except DispatchError (List Msg)
  | [], s => (s, .ok [])
  | tc :: rest, s =>
    match tc.function.arguments with
    | none => (s, .error .decodeError)
    | some args =>
      match g tc.function.name with
      | none =>
          let r := handle_tool_calls g rest s
          (r.1, r.2.map (fun ms => mkToolMsg tc.id (dumps (.obj [])) :: ms))
      | some b =>
          match invokeBinding b args s with
          | (s', .error e) => (s', .error e)
          | (s', .ok res) =>
              let r := handle_tool_calls g rest s'
              (r.1, r.2.map (fun ms => mkToolMsg tc.id (dumps res) :: ms))

/-- `name = "Colby Hood"`. -/
def name : String := "Colby Hood"

/-- The `me.txt` load: the file's text when the open succeeds, the
placeholder when `FileNotFoundError` is caught. -/
def background_info (file : Option String) : String :=
  file.getD "Error: Background information file not found. Cannot answer questions."

/-- The persona/system prompt f-string, split at its two holes
(`{name}` and `{combined_documents}`). -/
def promptBeforeName : String := "ROLE: You are "

/-- The f-string text between `{name}` and `{combined_documents}`. -/
def promptMiddle : String :=
  ". Answer only about your career, background, skills, and experience.\n\nGROUNDING & ACCURACY:\n- Use ONLY the evidence in the Summary below. If a fact is missing, say \"That specific detail isn't in my materials\" or similar — never guess.\n- If a question maps to multiple possible companies/roles and you're <100% certain, present 2-3 options from the Summary and ask the user to clarify.\n- Never fabricate dates, metrics, titles, or achievements. String-match against the Summary.\n\nUNKNOWN HANDLING:\n- When you cannot answer a career-relevant question from the Summary, state that clearly and call record_unknown_question.\n- Do NOT log off-topic or trivial questions.\n\nCONTACT COLLECTION:\n- The user will receive a contact invitation at the start of the conversation and optionally at message #5.\n- Use record_user_details ONLY after they explicitly volunteer email/LinkedIn or request follow-up.\n- No pushy contact requests beyond those two automated prompts.\n\nVOICE & STYLE (Colby Hood):\n- Compact, precise, goal-anchored. No filler, hedging, or rhetorical questions.\n- Lead with the answer, then minimum proof. Numbers beat adjectives.\n- Prefer bullets (3–6) over paragraphs when listing facts. 8–18 words per sentence.\n- Active voice, strong verbs, concrete detail. No emojis or exclamations.\n- If behavioral (STAR): label exactly as Situation:, Task:, Action:, Result: with non-empty content for each.\n\nSCOPE:\n- Career questions only. Politely decline off-topic requests: \"I'm here to discuss my professional background.\"\n\n## Summary\n"

/-- The f-string tail after `{combined_documents}`. -/
def promptAfter : String := "\n\nChat as Colby Hood. Follow these rules strictly."

/-- `system_prompt` as a function of `combined_documents`
(which the source sets to `background_info`). -/
def system_prompt (combined_documents : String) : String :=
  promptBeforeName ++ name ++ promptMiddle ++ combined_documents ++ promptAfter

/-- The persona message `{"role": "system", "content": system_prompt}`,
for a given `me.txt` outcome. -/
def sysMsg (file : Option String) : Msg :=
  ⟨"system", system_prompt (background_info file), [], none⟩

/-- A user-role dict `{"role": "user", "content": c}`. -/
def mkUserMsg (c : String) : Msg := ⟨"user", c, [], none⟩

/-- The contact preamble on the first user turn (`conversation_count == 0`). -/
def contactPromptFirst : String :=
  "Before we dive in — I'm Colby Hood. If you'd like me to reach out personally or share more insights, just drop your email or LinkedIn link (once is plenty).\n\n"

/-- The contact preamble on the fifth user turn (`conversation_count == 4`). -/
def contactPromptFifth : String :=
  "Hey, just checking — if you want me to follow up directly, feel free to share contact info here. No pressure, totally optional.\n\n"

/-- The `contact_prompt` chosen from the pre-increment counter. -/
def contact_prompt (conversation_count : Nat) : String :=
  if conversation_count == 0 then contactPromptFirst
  else if conversation_count == 4 then contactPromptFifth
  else ""

/-- `user_input = contact_prompt + message if contact_prompt else message`. -/
def user_input_of (conversation_count : Nat) (message : String) : String :=
  if contact_prompt conversation_count == "" then message
  else contact_prompt conversation_count ++ message

/-- One oracle response from `openai.chat.completions.create`: the finish
reason and the assistant message of `choices[0]`. -/
structure LLMResponse where
  finish_reason : String
  message : Msg
deriving Repr, DecidableEq

/-- How a run of the conversation loop ends. -/
inductive LoopResult where
  /-- The finish indicator was not `"tool_calls"`: the content is returned. -/
  | finished (content : String)
  /-- The dispatcher raised; the exception propagates out of `chat`. -/
  | failed (e : DispatchError)
  /-- The oracle ran out of responses with the loop still going: the code
  would issue another LLM call. -/
  | exhausted
deriving Repr, DecidableEq

/-- The observables of one `chat` loop run: the outcome, the Notifier state,
how many LLM calls completed, and the message list sent on each call. -/
structure LoopOut where
  result : LoopResult
  state : PushState
  calls : Nat
  sent : List (List Msg)
deriving Repr, DecidableEq

/-- The `while not done` loop of `chat`: call the LLM with the current
`messages`; on finish reason `"tool_calls"` dispatch the tools, append the
assistant message and the results, and loop; otherwise return the content. -/
def chatLoop (g : String → Option GlobalBinding) :
    List LLMResponse → List Msg → PushState → LoopOut
  | [], _, s => ⟨.exhausted, s, 0, []⟩
  | r :: rest, messages, s =>
    if r.finish_reason == "tool_calls" then
      match handle_tool_calls g r.message.tool_calls s with
      | (s', .error e) => ⟨.failed e, s', 1, [messages]⟩
      | (s', .ok results) =>
          let o := chatLoop g rest (messages ++ r.message :: results) s'
          ⟨o.result, o.state, o.calls + 1, messages :: o.sent⟩
    else ⟨.finished r.message.content, s, 1, [messages]⟩

/-- `chat(message, history)`: initialize `conversation_count` when unset
(`none`), choose the contact preamble from the pre-increment counter,
increment the counter, build `[system] + history + [user]`, and run the
loop.  Returns the loop observables and the post-call counter. -/
def chat (g : String → Option GlobalBinding) (file : Option String)
    (cc : Option Nat) (message : String) (history : List Msg)
    (responses : List LLMResponse) (s : PushState) : LoopOut × Nat :=
  let conversation_count := cc.getD 0
  let ui := user_input_of conversation_count message
  (chatLoop g responses (sysMsg file :: history ++ [mkUserMsg ui]) s,
   conversation_count + 1)

/-- An oracle response that requests tools: finish reason `"tool_calls"`
with an assistant message (here carrying no invocations, so its dispatch
succeeds under every global namespace). -/
def perpetualToolResponse : LLMResponse := ⟨"tool_calls", ⟨"assistant", "", [], none⟩⟩

/-- An oracle response that ends the conversation with text `t`. -/
def finalResponse (t : String) : LLMResponse := ⟨"stop", ⟨"assistant", t, [], none⟩⟩

/-! ### Shared lemmas about the dispatcher and the loop -/

/-- Unfolding the dispatch of a request whose name is unbound in the global
namespace: a `\x7b\x7d`-content tool message is emitted and the rest of the
dispatch proceeds unchanged. -/
lemma dispatch_cons_unbound (g : String → Option GlobalBinding) (tc : ToolCall)
    (rest : List ToolCall) (s : PushState) (args : Args)
    (hdec : tc.function.arguments = some args)
    (hname : g tc.function.name = none) :
    handle_tool_calls g (tc :: rest) s =
      ((handle_tool_calls g rest s).1,
       (handle_tool_calls g rest s).2.map
         (fun ms => mkToolMsg tc.id "\x7b\x7d" :: ms)) := by
  have hd : dumps (.obj []) = "\x7b\x7d" := rfl
  simp [handle_tool_calls, hdec, hname, hd]

/-- Unfolding the dispatch of a request whose name is bound: the binding is
invoked on the decoded arguments; an exception aborts the dispatch, a result
is serialized into the request's tool message and the dispatch continues. -/
lemma dispatch_cons_bound (g : String → Option GlobalBinding) (tc : ToolCall)
    (rest : List ToolCall) (s : PushState) (args : Args) (b : GlobalBinding)
    (hdec : tc.function.arguments = some args)
    (hname : g tc.function.name = some b) :
    handle_tool_calls g (tc :: rest) s =
      match invokeBinding b args s with
      | (s', .error e) => (s', .error e)
      | (s', .ok res) =>
          ((handle_tool_calls g rest s').1,
           (handle_tool_calls g rest s').2.map
             (fun ms => mkToolMsg tc.id (dumps res) :: ms)) := by
  simp [handle_tool_calls, hdec, hname]

/-- A completed (exception-free) dispatch returns tool-role messages whose
correlation ids are exactly the requests' ids, in order. -/
lemma handle_tool_calls_ok_ids (g : String → Option GlobalBinding) :
    ∀ (tcs : List ToolCall) (s s' : PushState) (results : List Msg),
      handle_tool_calls g tcs s = (s', .ok results) →
      results.map Msg.tool_call_id = tcs.map (fun tc => some tc.id) ∧
      ∀ m ∈ results, m.role = "tool" := by
  intro tcs
  induction tcs with
  | nil =>
    intro s s' results h
    simp [handle_tool_calls] at h
    obtain ⟨h1, h2⟩ := h
    subst h2
    simp
  | cons tc rest ih =>
    intro s s' results h
    cases hdec : tc.function.arguments with
    | none => simp [handle_tool_calls, hdec] at h
    | some args =>
      cases hname : g tc.function.name with
      | none =>
        rw [dispatch_cons_unbound g tc rest s args hdec hname] at h
        cases hrest : (handle_tool_calls g rest s).2 with
        | error e => rw [hrest] at h; simp [Except.map] at h
        | ok ms =>
          rw [hrest] at h
          simp [Except.map] at h
          obtain ⟨hs, hres⟩ := h
          obtain ⟨hids, hroles⟩ := ih s (handle_tool_calls g rest s).1 ms
            (by rw [← hrest])
          subst hres
          refine ⟨by simp [mkToolMsg, hids], ?_⟩
          intro m hm
          rcases List.mem_cons.1 hm with h1 | h1
          · subst h1; rfl
          · exact hroles m h1
      | some b =>
        rw [dispatch_cons_bound g tc rest s args b hdec hname] at h
        cases hinv : invokeBinding b args s with
        | mk s1 r =>
          cases r with
          | error e => rw [hinv] at h; simp at h
          | ok res =>
            rw [hinv] at h
            simp only [] at h
            cases hrest : (handle_tool_calls g rest s1).2 with
            | error e =>
              rw [hrest] at h
              simp [Except.map] at h
            | ok ms =>
              rw [hrest] at h
              simp [Except.map] at h
              obtain ⟨hs, hres⟩ := h
              obtain ⟨hids, hroles⟩ := ih s1 (handle_tool_calls g rest s1).1 ms
                (by rw [← hrest])
              subst hres
              refine ⟨by simp [mkToolMsg, hids], ?_⟩
              intro m hm
              rcases List.mem_cons.1 hm with h1 | h1
              · subst h1; rfl
              · exact hroles m h1

/-- A dispatch containing a request with malformed arguments never returns a
result list: it raises (the malformed request itself raises `decodeError`;
an earlier request can only raise sooner). -/
lemma handle_tool_calls_error_of_malformed (g : String → Option GlobalBinding) :
    ∀ (pre : List ToolCall) (tc : ToolCall) (rest : List ToolCall) (s : PushState),
      tc.function.arguments = none →
      ∃ e, (handle_tool_calls g (pre ++ tc :: rest) s).2 = .error e := by
  intro pre
  induction pre with
  | nil =>
    intro tc rest s hdec
    exact ⟨.decodeError, by simp [handle_tool_calls, hdec]⟩
  | cons tc0 pre' ih =>
    intro tc rest s hdec
    cases hdec0 : tc0.function.arguments with
    | none => exact ⟨.decodeError, by simp [handle_tool_calls, hdec0]⟩
    | some args =>
      cases hname : g tc0.function.name with
      | none =>
        obtain ⟨e, he⟩ := ih tc rest s hdec
        refine ⟨e, ?_⟩
        rw [List.cons_append,
          dispatch_cons_unbound g tc0 (pre' ++ tc :: rest) s args hdec0 hname]
        simp [he, Except.map]
      | some b =>
        cases hinv : invokeBinding b args s with
        | mk s1 r =>
          cases r with
          | error e =>
            refine ⟨e, ?_⟩
            rw [List.cons_append,
              dispatch_cons_bound g tc0 (pre' ++ tc :: rest) s args b hdec0 hname, hinv]
          | ok res =>
            obtain ⟨e, he⟩ := ih tc rest s1 hdec
            refine ⟨e, ?_⟩
            rw [List.cons_append,
              dispatch_cons_bound g tc0 (pre' ++ tc :: rest) s args b hdec0 hname, hinv]
            simp [he, Except.map]

/-- Loop step: a `"tool_calls"` response with a successful dispatch appends
the assistant message and all the results before the next call. -/
lemma chatLoop_cons_tool_ok (g : String → Option GlobalBinding)
    (r : LLMResponse) (rest : List LLMResponse) (messages : List Msg)
    (s s1 : PushState) (results : List Msg)
    (hf : r.finish_reason = "tool_calls")
    (hd : handle_tool_calls g r.message.tool_calls s = (s1, .ok results)) :
    chatLoop g (r :: rest) messages s =
      ⟨(chatLoop g rest (messages ++ r.message :: results) s1).result,
       (chatLoop g rest (messages ++ r.message :: results) s1).state,
       (chatLoop g rest (messages ++ r.message :: results) s1).calls + 1,
       messages :: (chatLoop g rest (messages ++ r.message :: results) s1).sent⟩ := by
  rw [chatLoop]
  simp [hf, hd]

/-- Loop step: a `"tool_calls"` response whose dispatch raises ends the run
in `failed`, with no further LLM calls. -/
lemma chatLoop_cons_tool_error (g : String → Option GlobalBinding)
    (r : LLMResponse) (rest : List LLMResponse) (messages : List Msg)
    (s s1 : PushState) (e : DispatchError)
    (hf : r.finish_reason = "tool_calls")
    (hd : handle_tool_calls g r.message.tool_calls s = (s1, .error e)) :
    chatLoop g (r :: rest) messages s = ⟨.failed e, s1, 1, [messages]⟩ := by
  rw [chatLoop]
  simp [hf, hd]

/-- Loop step: any finish reason other than `"tool_calls"` ends the loop and
returns the message content unchanged. -/
lemma chatLoop_cons_final (g : String → Option GlobalBinding)
    (r : LLMResponse) (rest : List LLMResponse) (messages : List Msg)
    (s : PushState) (hf : r.finish_reason ≠ "tool_calls") :
    chatLoop g (r :: rest) messages s =
      ⟨.finished r.message.content, s, 1, [messages]⟩ := by
  rw [chatLoop]
  simp [hf]

/-- When at least one response arrives, the first message list sent to the
LLM is the one the loop was entered with. -/
lemma chatLoop_sent_head (g : String → Option GlobalBinding)
    (r : LLMResponse) (rest : List LLMResponse) (messages : List Msg)
    (s : PushState) :
    (chatLoop g (r :: rest) messages s).sent.head? = some messages := by
  by_cases hf : r.finish_reason = "tool_calls"
  · cases hd : handle_tool_calls g r.message.tool_calls s with
    | mk s1 rr =>
      cases rr with
      | error e =>
        rw [chatLoop_cons_tool_error g r rest messages s s1 e hf hd]
        rfl
      | ok results =>
        rw [chatLoop_cons_tool_ok g r rest messages s s1 results hf hd]
        rfl
  · rw [chatLoop_cons_final g r rest messages s hf]
    rfl

/-- Every message list the loop sends extends the list it was entered with,
and (when all oracle responses are assistant-role) the extension holds no
system-role entry. -/
lemma chatLoop_sent_extends (g : String → Option GlobalBinding) :
    ∀ (responses : List LLMResponse) (messages : List Msg) (s : PushState),
      (∀ r ∈ responses, r.message.role = "assistant") →
      ∀ l ∈ (chatLoop g responses messages s).sent,
        ∃ extra, l = messages ++ extra ∧ ∀ m ∈ extra, m.role ≠ "system" := by
  intro responses
  induction responses with
  | nil =>
    intro messages s _ l hl
    simp [chatLoop] at hl
  | cons r rest ih =>
    intro messages s hroles l hl
    by_cases hf : r.finish_reason = "tool_calls"
    · cases hd : handle_tool_calls g r.message.tool_calls s with
      | mk s1 rr =>
        cases rr with
        | error e =>
          rw [chatLoop_cons_tool_error g r rest messages s s1 e hf hd] at hl
          simp at hl
          subst hl
          exact ⟨[], by simp⟩
        | ok results =>
          rw [chatLoop_cons_tool_ok g r rest messages s s1 results hf hd] at hl
          simp at hl
          rcases hl with hl | hl
          · subst hl; exact ⟨[], by simp⟩
          · obtain ⟨extra, hx, hxr⟩ := ih (messages ++ r.message :: results) s1
              (fun r' hr' => hroles r' (List.mem_cons_of_mem r hr')) l hl
            refine ⟨r.message :: results ++ extra, ?_, ?_⟩
            · rw [hx]; simp
            · intro m hm
              rcases List.mem_cons.1 hm with h1 | h1
              · subst h1
                rw [hroles r (List.mem_cons_self r rest)]
                simp
              · rcases List.mem_append.1 h1 with h2 | h2
                · have hrole := (handle_tool_calls_ok_ids g r.message.tool_calls
                    s s1 results hd).2 m h2
                  rw [hrole]
                  simp
                · exact hxr m h2
    · rw [chatLoop_cons_final g r rest messages s hf] at hl
      simp at hl
      subst hl
      exact ⟨[], by simp⟩

/-- Soundness of a finished run: the returned text is the content of the
first response whose finish reason is not `"tool_calls"`, and the loop made
one LLM call per response up to and including that one. -/
lemma chatLoop_finished_spec (g : String → Option GlobalBinding) :
    ∀ (responses : List LLMResponse) (messages : List Msg) (s : PushState)
      (t : String),
      (chatLoop g responses messages s).result = .finished t →
      ∃ front r back, responses = front ++ r :: back ∧
        (∀ x ∈ front, x.finish_reason = "tool_calls") ∧
        r.finish_reason ≠ "tool_calls" ∧
        t = r.message.content ∧
        (chatLoop g responses messages s).calls = front.length + 1 := by
  intro responses
  induction responses with
  | nil =>
    intro messages s t h
    simp [chatLoop] at h
  | cons r rest ih =>
    intro messages s t h
    by_cases hf : r.finish_reason = "tool_calls"
    · cases hd : handle_tool_calls g r.message.tool_calls s with
      | mk s1 rr =>
        cases rr with
        | error e =>
          rw [chatLoop_cons_tool_error g r rest messages s s1 e hf hd] at h
          simp at h
        | ok results =>
          rw [chatLoop_cons_tool_ok g r rest messages s s1 results hf hd] at h
          obtain ⟨front, r', back, hsplit, hfront, hr', ht, hcalls⟩ :=
            ih (messages ++ r.message :: results) s1 t h
          refine ⟨r :: front, r', back, by rw [hsplit]; rfl, ?_, hr', ht, ?_⟩
          · intro x hx
            rcases List.mem_cons.1 hx with h1 | h1
            · subst h1; exact hf
            · exact hfront x h1
          · rw [chatLoop_cons_tool_ok g r rest messages s s1 results hf hd, hcalls]
            simp
    · rw [chatLoop_cons_final g r rest messages s hf] at h
      simp at h
      refine ⟨[], r, rest, rfl, by simp, hf, h.symm, ?_⟩
      rw [chatLoop_cons_final g r rest messages s hf]
      rfl

/-! ### Claims -/

/-- C1, counterexample: the claim says a request whose tool name is absent
from the Tool Registry (neither `record_user_details` nor
`record_unknown_question`) yields an empty-mapping result.  The name `push`
is absent from the Registry, yet dispatching it invokes the module function
`push`: the Notifier fires and the serialized result is `"null"` (Python
`None`), not the serialization of an empty mapping. -/
theorem c1_registry_absent_counterexample :
    ("push" ∈ registryNames → False) ∧
    handle_tool_calls moduleGlobals
        [⟨"call_1", ⟨"push", some [("message", "hi")]⟩⟩] ⟨[]⟩ =
      (⟨["hi"]⟩, .ok [mkToolMsg "call_1" "null"]) ∧
    mkToolMsg "call_1" "null" ≠ mkToolMsg "call_1" (dumps (.obj [])) := by
  refine ⟨by decide, rfl, by decide⟩

/-- C1, amended: a request whose tool name is absent from the module's
global namespace (not merely from the Registry) yields a tool-role message
with that request's id whose content is the empty mapping `\x7b\x7d`; the
dispatcher does not raise on it and continues with the remaining requests. -/
theorem c1_unknown_name_soft_failure (tc : ToolCall) (rest : List ToolCall)
    (s : PushState) (args : Args)
    (hdec : tc.function.arguments = some args)
    (hname : moduleGlobals tc.function.name = none) :
    handle_tool_calls moduleGlobals (tc :: rest) s =
      ((handle_tool_calls moduleGlobals rest s).1,
       (handle_tool_calls moduleGlobals rest s).2.map
         (fun ms => mkToolMsg tc.id (dumps (.obj [])) :: ms)) :=
  dispatch_cons_unbound moduleGlobals tc rest s args hdec hname

/-- C1 witness: the amended statement at the unbound name `no_such_tool`. -/
theorem c1_unknown_name_soft_failure_witness :
    handle_tool_calls moduleGlobals
        [⟨"c1w", ⟨"no_such_tool", some []⟩⟩] ⟨[]⟩ =
      ((handle_tool_calls moduleGlobals [] ⟨[]⟩).1,
       (handle_tool_calls moduleGlobals [] ⟨[]⟩).2.map
         (fun ms => mkToolMsg "c1w" (dumps (.obj [])) :: ms)) :=
  c1_unknown_name_soft_failure ⟨"c1w", ⟨"no_such_tool", some []⟩⟩ [] ⟨[]⟩ []
    rfl rfl

/-- C2: the dispatcher's name-resolution domain is the whole module global
namespace, not the two-entry Registry: `push`, `chat` and
`record_user_details` are all resolvable (though `push` and `chat` are not
Registry tools); a resolvable name has its binding invoked on the decoded
arguments; only an unbound name yields the empty-mapping result. -/
theorem c2_dispatch_domain_is_globals :
    (moduleGlobals "push").isSome = true ∧
    (moduleGlobals "chat").isSome = true ∧
    (moduleGlobals "record_user_details").isSome = true ∧
    ("push" ∈ registryNames → False) ∧
    ("chat" ∈ registryNames → False) ∧
    (∀ (tc : ToolCall) (rest : List ToolCall) (s : PushState) (args : Args)
        (b : GlobalBinding),
        tc.function.arguments = some args →
        moduleGlobals tc.function.name = some b →
        handle_tool_calls moduleGlobals (tc :: rest) s =
          match invokeBinding b args s with
          | (s', .error e) => (s', .error e)
          | (s', .ok res) =>
              ((handle_tool_calls moduleGlobals rest s').1,
               (handle_tool_calls moduleGlobals rest s').2.map
                 (fun ms => mkToolMsg tc.id (dumps res) :: ms))) ∧
    (∀ (tc : ToolCall) (rest : List ToolCall) (s : PushState) (args : Args),
        tc.function.arguments = some args →
        moduleGlobals tc.function.name = none →
        handle_tool_calls moduleGlobals (tc :: rest) s =
          ((handle_tool_calls moduleGlobals rest s).1,
           (handle_tool_calls moduleGlobals rest s).2.map
             (fun ms => mkToolMsg tc.id (dumps (.obj [])) :: ms))) := by
  refine ⟨rfl, rfl, rfl, by decide, by decide, ?_, ?_⟩
  · intro tc rest s args b hdec hname
    exact dispatch_cons_bound moduleGlobals tc rest s args b hdec hname
  · intro tc rest s args hdec hname
    exact dispatch_cons_unbound moduleGlobals tc rest s args hdec hname

/-- C2 witness: a bound name (`record_user_details`) is invoked, an unbound
name yields the empty mapping. -/
theorem c2_dispatch_domain_is_globals_witness :
    (handle_tool_calls moduleGlobals
        [⟨"c2a", ⟨"record_user_details", some [("email", "a@b.com")]⟩⟩] ⟨[]⟩ =
      match invokeBinding (.tool record_user_details_tool)
          [("email", "a@b.com")] ⟨[]⟩ with
      | (s', .error e) => (s', .error e)
      | (s', .ok res) =>
          ((handle_tool_calls moduleGlobals [] s').1,
           (handle_tool_calls moduleGlobals [] s').2.map
             (fun ms => mkToolMsg "c2a" (dumps res) :: ms))) ∧
    (handle_tool_calls moduleGlobals
        [⟨"c2b", ⟨"no_such_tool", some []⟩⟩] ⟨[]⟩ =
      ((handle_tool_calls moduleGlobals [] ⟨[]⟩).1,
       (handle_tool_calls moduleGlobals [] ⟨[]⟩).2.map
         (fun ms => mkToolMsg "c2b" (dumps (.obj [])) :: ms))) :=
  ⟨c2_dispatch_domain_is_globals.2.2.2.2.2.1
      ⟨"c2a", ⟨"record_user_details", some [("email", "a@b.com")]⟩⟩ [] ⟨[]⟩
      [("email", "a@b.com")] (.tool record_user_details_tool) rfl rfl,
   c2_dispatch_domain_is_globals.2.2.2.2.2.2
      ⟨"c2b", ⟨"no_such_tool", some []⟩⟩ [] ⟨[]⟩ [] rfl rfl⟩

/-- C3: a completed dispatch emits exactly one tool-role message per
request — the counts agree, the correlation ids match the requests' ids
one-for-one and in input order, every emitted message is tool-role — and
the loop appends the assistant message and all of these results to the
message sequence before the next LLM call. -/
theorem c3_one_tool_message_per_request :
    (∀ (g : String → Option GlobalBinding) (tcs : List ToolCall)
        (s s' : PushState) (results : List Msg),
        handle_tool_calls g tcs s = (s', .ok results) →
        results.length = tcs.length ∧
        results.map Msg.tool_call_id = tcs.map (fun tc => some tc.id) ∧
        ∀ m ∈ results, m.role = "tool") ∧
    (∀ (g : String → Option GlobalBinding) (r : LLMResponse)
        (rest : List LLMResponse) (messages : List Msg) (s s1 : PushState)
        (results : List Msg),
        r.finish_reason = "tool_calls" →
        handle_tool_calls g r.message.tool_calls s = (s1, .ok results) →
        chatLoop g (r :: rest) messages s =
          ⟨(chatLoop g rest (messages ++ r.message :: results) s1).result,
           (chatLoop g rest (messages ++ r.message :: results) s1).state,
           (chatLoop g rest (messages ++ r.message :: results) s1).calls + 1,
           messages :: (chatLoop g rest (messages ++ r.message :: results) s1).sent⟩) := by
  constructor
  · intro g tcs s s' results h
    obtain ⟨hids, hroles⟩ := handle_tool_calls_ok_ids g tcs s s' results h
    refine ⟨?_, hids, hroles⟩
    have hlen := congrArg List.length hids
    simpa using hlen
  · intro g r rest messages s s1 results hf hd
    exact chatLoop_cons_tool_ok g r rest messages s s1 results hf hd

/-- C3 witness: one request, one tool-role result carrying its id; the loop
appends the assistant message and the result before the next call. -/
theorem c3_one_tool_message_per_request_witness :
    ([mkToolMsg "a1" (dumps (.obj []))].length =
        [(⟨"a1", ⟨"no_such_tool", some []⟩⟩ : ToolCall)].length ∧
      [mkToolMsg "a1" (dumps (.obj []))].map Msg.tool_call_id =
        [(⟨"a1", ⟨"no_such_tool", some []⟩⟩ : ToolCall)].map (fun tc => some tc.id) ∧
      ∀ m ∈ [mkToolMsg "a1" (dumps (.obj []))], m.role = "tool") ∧
    chatLoop moduleGlobals
        [⟨"tool_calls", ⟨"assistant", "", [⟨"a1", ⟨"no_such_tool", some []⟩⟩], none⟩⟩]
        [] ⟨[]⟩ =
      ⟨(chatLoop moduleGlobals []
          ([] ++ (⟨"assistant", "", [⟨"a1", ⟨"no_such_tool", some []⟩⟩], none⟩ : Msg) ::
            [mkToolMsg "a1" (dumps (.obj []))]) ⟨[]⟩).result,
       (chatLoop moduleGlobals []
          ([] ++ (⟨"assistant", "", [⟨"a1", ⟨"no_such_tool", some []⟩⟩], none⟩ : Msg) ::
            [mkToolMsg "a1" (dumps (.obj []))]) ⟨[]⟩).state,
       (chatLoop moduleGlobals []
          ([] ++ (⟨"assistant", "", [⟨"a1", ⟨"no_such_tool", some []⟩⟩], none⟩ : Msg) ::
            [mkToolMsg "a1" (dumps (.obj []))]) ⟨[]⟩).calls + 1,
       [] :: (chatLoop moduleGlobals []
          ([] ++ (⟨"assistant", "", [⟨"a1", ⟨"no_such_tool", some []⟩⟩], none⟩ : Msg) ::
            [mkToolMsg "a1" (dumps (.obj []))]) ⟨[]⟩).sent⟩ :=
  ⟨c3_one_tool_message_per_request.1 moduleGlobals
      [⟨"a1", ⟨"no_such_tool", some []⟩⟩] ⟨[]⟩ ⟨[]⟩
      [mkToolMsg "a1" (dumps (.obj []))] rfl,
   c3_one_tool_message_per_request.2 moduleGlobals
      ⟨"tool_calls", ⟨"assistant", "", [⟨"a1", ⟨"no_such_tool", some []⟩⟩], none⟩⟩
      [] [] ⟨[]⟩ ⟨[]⟩ [mkToolMsg "a1" (dumps (.obj []))] rfl rfl⟩

/-- C4: a request whose argument payload fails to decode aborts the dispatch
with a hard error: reached directly it raises the decode error with no
tool-role message for it or anything after it; a dispatch containing such a
request never returns a result list; the loop run ends in `failed`, which
`chat` propagates to its caller, and no further LLM call is made. -/
theorem c4_malformed_arguments_abort :
    (∀ (g : String → Option GlobalBinding) (tc : ToolCall)
        (rest : List ToolCall) (s : PushState),
        tc.function.arguments = none →
        handle_tool_calls g (tc :: rest) s = (s, .error .decodeError)) ∧
    (∀ (g : String → Option GlobalBinding) (pre : List ToolCall)
        (tc : ToolCall) (rest : List ToolCall) (s : PushState),
        tc.function.arguments = none →
        ∃ e, (handle_tool_calls g (pre ++ tc :: rest) s).2 = .error e) ∧
    (∀ (g : String → Option GlobalBinding) (r : LLMResponse)
        (rest : List LLMResponse) (messages : List Msg) (s s1 : PushState)
        (e : DispatchError),
        r.finish_reason = "tool_calls" →
        handle_tool_calls g r.message.tool_calls s = (s1, .error e) →
        chatLoop g (r :: rest) messages s = ⟨.failed e, s1, 1, [messages]⟩) ∧
    (∀ (g : String → Option GlobalBinding) (file : Option String)
        (cc : Option Nat) (message : String) (history : List Msg)
        (r : LLMResponse) (rest : List LLMResponse) (s s1 : PushState)
        (e : DispatchError),
        r.finish_reason = "tool_calls" →
        handle_tool_calls g r.message.tool_calls s = (s1, .error e) →
        (chat g file cc message history (r :: rest) s).1.result = .failed e) := by
  refine ⟨?_, ?_, ?_, ?_⟩
  · intro g tc rest s hdec
    simp [handle_tool_calls, hdec]
  · intro g pre tc rest s hdec
    exact handle_tool_calls_error_of_malformed g pre tc rest s hdec
  · intro g r rest messages s s1 e hf hd
    exact chatLoop_cons_tool_error g r rest messages s s1 e hf hd
  · intro g file cc message history r rest s s1 e hf hd
    have h1 : (chat g file cc message history (r :: rest) s).1 =
        chatLoop g (r :: rest)
          (sysMsg file :: history ++
            [mkUserMsg (user_input_of (cc.getD 0) message)]) s := rfl
    rw [h1, chatLoop_cons_tool_error g r rest _ s s1 e hf hd]

/-- C4 witness: a malformed payload for `record_user_details` aborts the
dispatch and fails the whole chat turn. -/
theorem c4_malformed_arguments_abort_witness :
    (handle_tool_calls moduleGlobals
        [⟨"b1", ⟨"record_user_details", none⟩⟩] ⟨[]⟩ =
      (⟨[]⟩, .error .decodeError)) ∧
    (∃ e, (handle_tool_calls moduleGlobals
        ([] ++ (⟨"b1", ⟨"record_user_details", none⟩⟩ : ToolCall) :: []) ⟨[]⟩).2 =
      .error e) ∧
    chatLoop moduleGlobals
        [⟨"tool_calls", ⟨"assistant", "", [⟨"b1", ⟨"record_user_details", none⟩⟩], none⟩⟩]
        [] ⟨[]⟩ = ⟨.failed .decodeError, ⟨[]⟩, 1, [[]]⟩ ∧
    (chat moduleGlobals none none "hello" []
        [⟨"tool_calls", ⟨"assistant", "", [⟨"b1", ⟨"record_user_details", none⟩⟩], none⟩⟩]
        ⟨[]⟩).1.result = .failed .decodeError :=
  ⟨c4_malformed_arguments_abort.1 moduleGlobals
      ⟨"b1", ⟨"record_user_details", none⟩⟩ [] ⟨[]⟩ rfl,
   c4_malformed_arguments_abort.2.1 moduleGlobals []
      ⟨"b1", ⟨"record_user_details", none⟩⟩ [] ⟨[]⟩ rfl,
   c4_malformed_arguments_abort.2.2.1 moduleGlobals
      ⟨"tool_calls", ⟨"assistant", "", [⟨"b1", ⟨"record_user_details", none⟩⟩], none⟩⟩
      [] [] ⟨[]⟩ ⟨[]⟩ .decodeError rfl rfl,
   c4_malformed_arguments_abort.2.2.2 moduleGlobals none none "hello" []
      ⟨"tool_calls", ⟨"assistant", "", [⟨"b1", ⟨"record_user_details", none⟩⟩], none⟩⟩
      [] ⟨[]⟩ ⟨[]⟩ .decodeError rfl rfl⟩

/-- C5: the loop returns, unchanged, the content of the first response whose
finish reason is not `"tool_calls"`, after one LLM call per response up to
and including it; in particular a final first response means exactly one
call whose content is the answer, also through `chat`. -/
theorem c5_first_final_response_returned :
    (∀ (g : String → Option GlobalBinding) (r : LLMResponse)
        (rest : List LLMResponse) (messages : List Msg) (s : PushState),
        r.finish_reason ≠ "tool_calls" →
        chatLoop g (r :: rest) messages s =
          ⟨.finished r.message.content, s, 1, [messages]⟩) ∧
    (∀ (g : String → Option GlobalBinding) (responses : List LLMResponse)
        (messages : List Msg) (s : PushState) (t : String),
        (chatLoop g responses messages s).result = .finished t →
        ∃ front r back, responses = front ++ r :: back ∧
          (∀ x ∈ front, x.finish_reason = "tool_calls") ∧
          r.finish_reason ≠ "tool_calls" ∧
          t = r.message.content ∧
          (chatLoop g responses messages s).calls = front.length + 1) ∧
    (∀ (g : String → Option GlobalBinding) (file : Option String)
        (cc : Option Nat) (message : String) (history : List Msg)
        (r : LLMResponse) (s : PushState),
        r.finish_reason ≠ "tool_calls" →
        (chat g file cc message history [r] s).1.result =
            .finished r.message.content ∧
        (chat g file cc message history [r] s).1.calls = 1) := by
  refine ⟨?_, ?_, ?_⟩
  · intro g r rest messages s hf
    exact chatLoop_cons_final g r rest messages s hf
  · intro g responses messages s t h
    exact chatLoop_finished_spec g responses messages s t h
  · intro g file cc message history r s hf
    have h1 : (chat g file cc message history [r] s).1 =
        chatLoop g [r]
          (sysMsg file :: history ++
            [mkUserMsg (user_input_of (cc.getD 0) message)]) s := rfl
    rw [h1, chatLoop_cons_final g r [] _ s hf]
    exact ⟨rfl, rfl⟩

/-- C5 witness: a single `"stop"` response is returned verbatim after one
call. -/
theorem c5_first_final_response_returned_witness :
    chatLoop moduleGlobals [finalResponse "the answer"] [] ⟨[]⟩ =
      ⟨.finished (finalResponse "the answer").message.content, ⟨[]⟩, 1, [[]]⟩ ∧
    (∃ front r back,
      [finalResponse "the answer"] = front ++ r :: back ∧
      (∀ x ∈ front, x.finish_reason = "tool_calls") ∧
      r.finish_reason ≠ "tool_calls" ∧
      "the answer" = r.message.content ∧
      (chatLoop moduleGlobals [finalResponse "the answer"] [] ⟨[]⟩).calls =
        front.length + 1) ∧
    (chat moduleGlobals none none "q" [] [finalResponse "the answer"] ⟨[]⟩).1.result =
      .finished (finalResponse "the answer").message.content :=
  ⟨c5_first_final_response_returned.1 moduleGlobals (finalResponse "the answer")
      [] [] ⟨[]⟩ (by decide),
   c5_first_final_response_returned.2.1 moduleGlobals [finalResponse "the answer"]
      [] ⟨[]⟩ "the answer" rfl,
   (c5_first_final_response_returned.2.2 moduleGlobals none none "q" []
      (finalResponse "the answer") ⟨[]⟩ (by decide)).1⟩

/-- C6: no iteration cap: for every `n`, `n` consecutive tool-use responses
leave the loop still awaiting the model (so a run that then finishes makes
`n + 1 > n` LLM calls), and the loop terminates exactly on the first
non-tool-use finish reason, returning its content. -/
theorem c6_no_iteration_cap :
    ∀ (n : Nat) (g : String → Option GlobalBinding) (messages : List Msg)
      (s : PushState) (t : String),
      (chatLoop g (List.replicate n perpetualToolResponse) messages s).result =
          .exhausted ∧
      (chatLoop g (List.replicate n perpetualToolResponse) messages s).calls = n ∧
      (chatLoop g (List.replicate n perpetualToolResponse ++ [finalResponse t])
          messages s).calls = n + 1 ∧
      n + 1 > n ∧
      (chatLoop g (List.replicate n perpetualToolResponse ++ [finalResponse t])
          messages s).result = .finished t := by
  intro n g
  induction n with
  | zero =>
    intro messages s t
    have hf : (finalResponse t).finish_reason ≠ "tool_calls" := by
      intro h
      simp [finalResponse] at h
    refine ⟨rfl, rfl, ?_, Nat.lt_succ_self 0, ?_⟩
    · rw [List.replicate_zero, List.nil_append,
        chatLoop_cons_final g (finalResponse t) [] messages s hf]
    · rw [List.replicate_zero, List.nil_append,
        chatLoop_cons_final g (finalResponse t) [] messages s hf]
      rfl
  | succ n ih =>
    intro messages s t
    have hstep : ∀ (tl : List LLMResponse),
        chatLoop g (perpetualToolResponse :: tl) messages s =
          ⟨(chatLoop g tl (messages ++ [perpetualToolResponse.message]) s).result,
           (chatLoop g tl (messages ++ [perpetualToolResponse.message]) s).state,
           (chatLoop g tl (messages ++ [perpetualToolResponse.message]) s).calls + 1,
           messages :: (chatLoop g tl (messages ++ [perpetualToolResponse.message]) s).sent⟩ :=
      fun tl => chatLoop_cons_tool_ok g perpetualToolResponse tl messages s s []
        rfl rfl
    obtain ⟨ih1, ih2, ih3, _, ih5⟩ := ih (messages ++ [perpetualToolResponse.message]) s t
    refine ⟨?_, ?_, ?_, Nat.lt_succ_self (n + 1), ?_⟩
    · rw [List.replicate_succ, hstep]
      exact ih1
    · rw [List.replicate_succ, hstep]
      simp [ih2]
    · rw [List.replicate_succ, List.cons_append, hstep]
      simp [ih3]
    · rw [List.replicate_succ, List.cons_append, hstep]
      exact ih5

/-- C7: `record_user_details` sends exactly one Notifier message, formatted
to contain the email, and returns `{"recorded": "ok"}` unconditionally;
`record_unknown_question` sends exactly one Notifier message containing the
question and returns `{"recorded": "ok"}`. -/
theorem c7_record_tools_notify :
    ∀ (email nm notes question : String) (s : PushState),
      (record_user_details email nm notes s).1.sent =
        s.sent ++ ["Recording interest from " ++ nm ++ " with email " ++
          email ++ " and notes " ++ notes] ∧
      (record_user_details email nm notes s).2 = recordedOk ∧
      (∃ pre post,
        "Recording interest from " ++ nm ++ " with email " ++ email ++
            " and notes " ++ notes = pre ++ email ++ post) ∧
      (record_unknown_question question s).1.sent =
        s.sent ++ ["Recording " ++ question ++ " asked that I couldn't answer"] ∧
      (record_unknown_question question s).2 = recordedOk ∧
      (∃ pre post,
        "Recording " ++ question ++ " asked that I couldn't answer" =
          pre ++ question ++ post) := by
  intro email nm notes question s
  refine ⟨rfl, rfl,
    ⟨"Recording interest from " ++ nm ++ " with email ",
     " and notes " ++ notes, ?_⟩, rfl, rfl,
    ⟨"Recording ", " asked that I couldn't answer", ?_⟩⟩
  · simp [String.append_assoc]
  · simp [String.append_assoc]

/-- C8: the first sequence sent to the LLM is exactly
`[persona] + [prior history] + [new user message]`, and (for a history of
user/assistant turns and assistant-role responses, as the provider and UI
supply) the persona message heads every sequence sent to the LLM and occurs
in it exactly once. -/
theorem c8_persona_first_and_once :
    ∀ (g : String → Option GlobalBinding) (file : Option String)
      (cc : Option Nat) (message : String) (history : List Msg)
      (responses : List LLMResponse) (s : PushState),
      (∀ m ∈ history, m.role ≠ "system") →
      (∀ r ∈ responses, r.message.role = "assistant") →
      (∀ (r : LLMResponse) (rs : List LLMResponse), responses = r :: rs →
        (chat g file cc message history responses s).1.sent.head? =
          some (sysMsg file :: history ++
            [mkUserMsg (user_input_of (cc.getD 0) message)])) ∧
      (∀ l ∈ (chat g file cc message history responses s).1.sent,
        ∃ tail, l = sysMsg file :: tail ∧ sysMsg file ∉ tail) := by
  intro g file cc message history responses s hhist hresp
  have hchat : (chat g file cc message history responses s).1 =
      chatLoop g responses
        (sysMsg file :: history ++
          [mkUserMsg (user_input_of (cc.getD 0) message)]) s := rfl
  constructor
  · rintro r rs rfl
    rw [hchat]
    exact chatLoop_sent_head g r rs _ s
  · intro l hl
    rw [hchat] at hl
    obtain ⟨extra, hx, hxr⟩ := chatLoop_sent_extends g responses
      (sysMsg file :: history ++
        [mkUserMsg (user_input_of (cc.getD 0) message)]) s hresp l hl
    refine ⟨(history ++ [mkUserMsg (user_input_of (cc.getD 0) message)]) ++ extra,
      ?_, ?_⟩
    · rw [hx]
      simp
    · intro hmem
      have hrole : (sysMsg file).role ≠ "system" := by
        rcases List.mem_append.1 hmem with h2 | h2
        · rcases List.mem_append.1 h2 with h3 | h3
          · exact hhist _ h3
          · simp at h3
            intro hc
            rw [h3] at hc
            simp [mkUserMsg] at hc
        · exact hxr _ h2
      exact hrole rfl

/-- C8 witness: a two-turn history and one final assistant response. -/
theorem c8_persona_first_and_once_witness :
    (chat moduleGlobals none none "hello"
        [⟨"user", "hi", [], none⟩, ⟨"assistant", "hey", [], none⟩]
        [finalResponse "fine"] ⟨[]⟩).1.sent.head? =
      some (sysMsg none ::
        [⟨"user", "hi", [], none⟩, ⟨"assistant", "hey", [], none⟩] ++
        [mkUserMsg (user_input_of ((none : Option Nat).getD 0) "hello")]) :=
  (c8_persona_first_and_once moduleGlobals none none "hello"
      [⟨"user", "hi", [], none⟩, ⟨"assistant", "hey", [], none⟩]
      [finalResponse "fine"] ⟨[]⟩
      (by decide) (by decide)).1
    (finalResponse "fine") [] rfl

/-- C9: `chat` increments the process-wide request counter by exactly one
per call (an unset counter counts as 0), and a contact-prompt preamble is
prepended to the user's message exactly when the pre-call counter is 0 or 4;
the (possibly prefixed) user input is what the first LLM call receives. -/
theorem c9_contact_prompt_schedule :
    ∀ (g : String → Option GlobalBinding) (file : Option String)
      (cc : Option Nat) (message : String) (history : List Msg)
      (responses : List LLMResponse) (s : PushState),
      (chat g file cc message history responses s).2 = cc.getD 0 + 1 ∧
      (cc.getD 0 = 0 →
        user_input_of (cc.getD 0) message = contactPromptFirst ++ message) ∧
      (cc.getD 0 = 4 →
        user_input_of (cc.getD 0) message = contactPromptFifth ++ message) ∧
      (cc.getD 0 ≠ 0 → cc.getD 0 ≠ 4 →
        user_input_of (cc.getD 0) message = message) ∧
      contactPromptFirst ≠ "" ∧
      contactPromptFifth ≠ "" ∧
      (∀ (r : LLMResponse) (rs : List LLMResponse), responses = r :: rs →
        (chat g file cc message history responses s).1.sent.head? =
          some (sysMsg file :: history ++
            [mkUserMsg (user_input_of (cc.getD 0) message)])) := by
  intro g file cc message history responses s
  refine ⟨rfl, ?_, ?_, ?_, by decide, by decide, ?_⟩
  · intro h
    rw [h]
    simp [user_input_of, contact_prompt, contactPromptFirst]
  · intro h
    rw [h]
    simp [user_input_of, contact_prompt, contactPromptFifth]
  · intro h0 h4
    simp [user_input_of, contact_prompt, h0, h4]
  · rintro r rs rfl
    have hchat : (chat g file cc message history (r :: rs) s).1 =
        chatLoop g (r :: rs)
          (sysMsg file :: history ++
            [mkUserMsg (user_input_of (cc.getD 0) message)]) s := rfl
    rw [hchat]
    exact chatLoop_sent_head g r rs _ s

/-- C9 witness: pre-call counter 4 gets the fifth-turn preamble and the
counter becomes 5; pre-call counter 1 gets no preamble. -/
theorem c9_contact_prompt_schedule_witness :
    (chat moduleGlobals none (some 4) "hi" [] [] ⟨[]⟩).2 =
        (some 4 : Option Nat).getD 0 + 1 ∧
    user_input_of ((some 4 : Option Nat).getD 0) "hi" =
      contactPromptFifth ++ "hi" ∧
    user_input_of ((some 1 : Option Nat).getD 0) "hi" = "hi" :=
  ⟨(c9_contact_prompt_schedule moduleGlobals none (some 4) "hi" [] [] ⟨[]⟩).1,
   (c9_contact_prompt_schedule moduleGlobals none (some 4) "hi" [] [] ⟨[]⟩).2.2.1
     rfl,
   (c9_contact_prompt_schedule moduleGlobals none (some 1) "hi" [] [] ⟨[]⟩).2.2.2.1
     (by decide) (by decide)⟩

/-- C10: with `me.txt` missing, startup substitutes the placeholder; the
persona instruction string is still non-empty and contains an explicit
statement that the background information is unavailable. -/
theorem c10_missing_background_placeholder :
    background_info none =
      "Error: Background information file not found. Cannot answer questions." ∧
    system_prompt (background_info none) ≠ "" ∧
    ∃ pre post, system_prompt (background_info none) =
      pre ++ "Background information file not found" ++ post := by
  refine ⟨rfl, ?_, ⟨promptBeforeName ++ name ++ promptMiddle ++ "Error: ",
    ". Cannot answer questions." ++ promptAfter, ?_⟩⟩
  · intro h
    have hlen := congrArg String.length h
    rw [system_prompt, String.length_append, String.length_append,
      String.length_append, String.length_append,
      show promptBeforeName.length = 14 from rfl,
      show ("" : String).length = 0 from rfl] at hlen
    omega
  · show promptBeforeName ++ name ++ promptMiddle ++ background_info none ++ promptAfter = _
    rw [show background_info none = "Error: " ++
      "Background information file not found" ++
      ". Cannot answer questions." from rfl]
    simp [String.append_assoc]
    rw [← String.append_assoc "Error: Background information file not found"
      ". Cannot answer questions." promptAfter]
    simp

end CareerChatBot
